import Mathlib

/-!
Verification development for the `docker-ms-architecture` repository.

Part 1 embeds the SLO tracking module `services/api/app/trace_metrics.py`:
the SLO catalogue `SLO_DEFINITIONS`, the request-recording operation
`track_request_for_slo`, and the compliance/error-budget update
`update_slo_compliance`, together with the low-budget log classification.

Part 2 embeds the trace analysis script `scripts/trace_analyze.py`
(`analyze_trace`): service attribution, the greedy critical path, error-span
collection and long-operation collection.

Python floats are idealised as rationals (`ℚ`); Prometheus gauges, histograms
and counters are modelled as explicit state (`SloMetrics`).  Functions that a
claim describes as possibly raising are embedded with `Except SloError`, so
that "raises" is statable; a path that in Python returns without raising is
embedded as `Except.ok`.
-/

namespace DockerMS

/-! ## SLO definitions (`trace_metrics.py`, `SLO_DEFINITIONS`) -/

structure SloDefinition where
  description : String
  target : ℚ
  latency_target : ℚ
  error_budget : ℚ
  windows : List String
  endpoints : List String
deriving DecidableEq, Repr

/-- The `api_health` SLO definition. -/
def apiHealthDef : SloDefinition :=
  { description := "API Health endpoint latency"
    target := 95/100
    latency_target := 1/10
    error_budget := 5/100
    windows := ["5m", "1h", "24h"]
    endpoints := ["health_check", "read_root", "/health"] }

/-- The `external_data` SLO definition. -/
def externalDataDef : SloDefinition :=
  { description := "External data retrieval latency"
    target := 90/100
    latency_target := 3/10
    error_budget := 10/100
    windows := ["5m", "1h", "24h"]
    endpoints := ["get_external_data"] }

/-- The `data_access` SLO definition. -/
def dataAccessDef : SloDefinition :=
  { description := "Database access operations latency"
    target := 95/100
    latency_target := 2/10
    error_budget := 5/100
    windows := ["5m", "1h", "24h"]
    endpoints := ["read_users", "read_items", "create_user", "create_item"] }

/-- The SLO catalogue, a dict keyed by SLO name in the source. -/
def SLO_DEFINITIONS : List (String × SloDefinition) :=
  [("api_health", apiHealthDef),
   ("external_data", externalDataDef),
   ("data_access", dataAccessDef)]

/-- Error taxonomy named by the specification for the SLO operations.
The Python code of `trace_metrics.py` contains no `raise` on these paths;
the embedding returns `Except SloError` so that claims about raising are
statable at all. -/
inductive SloError where
  | invalidWindow : SloError
  | invalidObservation : SloError
deriving DecidableEq, Repr

/-- The Prometheus state touched by the SLO operations:
`SLO_LATENCY_BUCKET` samples and `SLO_ERROR_COUNTER` counts keyed by
`(endpoint, slo)`, the `SLO_COMPLIANCE` gauge keyed by
`(endpoint, slo, window)`, and the `SLO_ERROR_BUDGET` gauge keyed by
`(slo, window)`.  A gauge that was never set holds `none`. -/
structure SloMetrics where
  latencyHist : String × String → List ℚ
  errorCount : String × String → ℕ
  compliance : String × String × String → Option ℚ
  errorBudget : String × String → Option ℚ

/-- A fresh metrics state: no samples, no errors, no gauge values. -/
def initMetrics : SloMetrics :=
  { latencyHist := fun _ => []
    errorCount := fun _ => 0
    compliance := fun _ => none
    errorBudget := fun _ => none }

/-- `track_request_for_slo(endpoint, slo_name, latency, is_error)`
(`trace_metrics.py` lines 248-292).  Unknown SLO name or an endpoint not in
the SLO's endpoint list returns early with no state change (the duplicated
guard at lines 262-264 is unreachable and re-checks the same condition).
Otherwise one latency sample is observed on `SLO_LATENCY_BUCKET` and, when
`is_error`, `SLO_ERROR_COUNTER` is incremented.  No path raises. -/
def trackRequestForSlo (s : SloMetrics) (endpoint slo_name : String)
    (latency : ℚ) (is_error : Bool) : Except SloError SloMetrics :=
  match SLO_DEFINITIONS.lookup slo_name with
  | none => .ok s
  | some slo_def =>
    if endpoint ∈ slo_def.endpoints then
      let s1 : SloMetrics :=
        { s with latencyHist := fun k =>
            if k = (endpoint, slo_name) then latency :: s.latencyHist k
            else s.latencyHist k }
      let s2 : SloMetrics :=
        if is_error then
          { s1 with errorCount := fun k =>
              if k = (endpoint, slo_name) then s1.errorCount k + 1
              else s1.errorCount k }
        else s1
      .ok s2
    else .ok s

/-- The error-budget arithmetic of `update_slo_compliance`
(`trace_metrics.py` lines 320-326), with `c` the compliance ratio:
`if compliance_ratio < target: budget_remaining = max(0, 1 - (target - compliance_ratio) / error_budget) else: 1.0`. -/
def budgetRemaining (target error_budget c : ℚ) : ℚ :=
  if c < target then max 0 (1 - (target - c) / error_budget) else 1

/-- `update_slo_compliance(endpoint, slo_name, compliance_ratio, window)`
(`trace_metrics.py` lines 295-344), with `c` the compliance ratio.
A window outside `["immediate", "5m", "1h", "24h"]`, or an unknown SLO name,
logs a warning and returns with no state change — it does not raise.
Otherwise the `SLO_COMPLIANCE` gauge is set, and for every window other than
`"immediate"` the `SLO_ERROR_BUDGET` gauge is set to `budgetRemaining`. -/
def updateSloCompliance (s : SloMetrics) (endpoint slo_name : String)
    (c : ℚ) (window : String) : Except SloError SloMetrics :=
  if window ∈ (["immediate", "5m", "1h", "24h"] : List String) then
    match SLO_DEFINITIONS.lookup slo_name with
    | none => .ok s
    | some slo_def =>
      let s1 : SloMetrics :=
        { s with compliance := fun k =>
            if k = (endpoint, slo_name, window) then some c
            else s.compliance k }
      if window ≠ "immediate" then
        .ok { s1 with errorBudget := fun k =>
                if k = (slo_name, window) then
                  some (budgetRemaining slo_def.target slo_def.error_budget c)
                else s1.errorBudget k }
      else .ok s1
  else .ok s

/-- Severity of the low-budget log line emitted at the end of
`update_slo_compliance` (`trace_metrics.py` lines 334-344):
`logger.warning` when `budget_remaining < 0.2`, else `logger.info` when
`budget_remaining < 0.5`, else nothing. -/
inductive LogLevel where
  | warning : LogLevel
  | info : LogLevel
deriving DecidableEq, Repr

/-- Which low-budget log line `update_slo_compliance` emits for a given
`budget_remaining` value (`trace_metrics.py` lines 334-344). -/
def budgetLogLevel (budget_remaining : ℚ) : Option LogLevel :=
  if budget_remaining < 2/10 then some LogLevel.warning
  else if budget_remaining < 5/10 then some LogLevel.info
  else none

/-- The health band shown by `display_slo_status`
(`scripts/slo_manager.py` lines 223-237): `budget > 0.5` is Healthy,
else `budget > 0.2` is Monitor (warn), else Critical. -/
inductive HealthBand where
  | healthy : HealthBand
  | warn : HealthBand
  | critical : HealthBand
deriving DecidableEq, Repr

/-- Band selection of `display_slo_status` (`scripts/slo_manager.py`
lines 226-231). -/
def displayHealthBand (budget : ℚ) : HealthBand :=
  if budget > 5/10 then HealthBand.healthy
  else if budget > 2/10 then HealthBand.warn
  else HealthBand.critical

/-- Projection of an SLO-operation result onto its success state. -/
def metricsOf : Except SloError SloMetrics → Option SloMetrics
  | .ok s => some s
  | .error _ => none

/-- Whether an SLO-operation result is a raised error. -/
def raises : Except SloError SloMetrics → Bool
  | .ok _ => false
  | .error _ => true

/-! ## Trace analysis (`scripts/trace_analyze.py`, `analyze_trace`) -/

/-- A JSON scalar as it appears in Jaeger tag keys and values; the Python
code compares them against string literals with `==`, so a boolean value
never equals the string `"true"`. -/
inductive JValue where
  | str : String → JValue
  | bool : Bool → JValue
  | num : ℚ → JValue
deriving DecidableEq, Repr

/-- A span tag: `tag.get("key")` / `tag.get("value")` may be absent. -/
structure JTag where
  key : Option JValue
  value : Option JValue
deriving DecidableEq, Repr

/-- A Jaeger span as read by `analyze_trace`; every field is accessed with
`span.get(..., default)`, so each is optional here.  `logs` is copied
verbatim into error entries; its payload is modelled as JSON scalars. -/
structure JSpan where
  processID : Option String
  startTime : Option Int
  duration : Option Int
  operationName : Option String
  tags : List JTag
  logs : List JValue
deriving DecidableEq, Repr

/-- A process table entry: `processes[pid].get("serviceName", "unknown")`. -/
structure JProcess where
  serviceName : Option String
deriving DecidableEq, Repr

/-- A Jaeger trace: `trace.get("spans", [])`, `trace.get("processes", {})`,
`trace.get("traceID", "Unknown")`. -/
structure JTrace where
  traceID : Option String
  spans : List JSpan
  processes : List (String × JProcess)
deriving DecidableEq, Repr

/-- The Python guard `if process_id and process_id in processes`: the span
has a processID, it is truthy (non-empty), and it is a key of the process
table. -/
def resolvable (processes : List (String × JProcess)) (span : JSpan) : Bool :=
  match span.processID with
  | none => false
  | some pid => pid != "" && (processes.lookup pid).isSome

/-- The service name `analyze_trace` attributes to a span: `"unknown"`
unless the guard `process_id and process_id in processes` passes, in which
case `processes[process_id].get("serviceName", "unknown")`. -/
def serviceOf (processes : List (String × JProcess)) (span : JSpan) : String :=
  match span.processID with
  | none => "unknown"
  | some pid =>
    if pid = "" then "unknown"
    else
      match processes.lookup pid with
      | none => "unknown"
      | some p => p.serviceName.getD "unknown"

/-- `service_spans[service_name].append(span)` on a `defaultdict(list)`:
append to the existing group, or create a new group at the end (Python
dicts preserve insertion order). -/
def addToGroups (groups : List (String × List JSpan)) (name : String)
    (span : JSpan) : List (String × List JSpan) :=
  if (groups.lookup name).isSome then
    groups.map (fun g => if g.1 = name then (g.1, g.2 ++ [span]) else g)
  else groups ++ [(name, [span])]

/-- The service-grouping loop of `analyze_trace` (lines 86-91): spans whose
service cannot be resolved are skipped entirely. -/
def serviceGroupsAux (processes : List (String × JProcess)) :
    List (String × List JSpan) → List JSpan → List (String × List JSpan)
  | groups, [] => groups
  | groups, span :: rest =>
    if resolvable processes span then
      serviceGroupsAux processes
        (addToGroups groups (serviceOf processes span) span) rest
    else serviceGroupsAux processes groups rest

/-- `service_spans` built from a trace's spans. -/
def serviceGroups (t : JTrace) : List (String × List JSpan) :=
  serviceGroupsAux t.processes [] t.spans

/-- A critical-path entry `{service, operation, duration, start, end}`;
`end` is a Lean keyword, so the field is called `endTime`. -/
structure CPEntry where
  service : String
  operation : String
  duration : Int
  start : Int
  endTime : Int
deriving DecidableEq, Repr

/-- The critical-path entry built for an accepted span
(`trace_analyze.py` lines 115-128). -/
def mkCPEntry (processes : List (String × JProcess)) (span : JSpan) :
    CPEntry :=
  { service := serviceOf processes span
    operation := span.operationName.getD "unknown"
    duration := span.duration.getD 0
    start := span.startTime.getD 0
    endTime := span.startTime.getD 0 + span.duration.getD 0 }

/-- The greedy scan of `analyze_trace` (lines 109-129): walk the sorted
spans keeping `current_end`; accept a span when `start >= current_end` and
advance `current_end` to `start + duration`. -/
def cpGo (processes : List (String × JProcess)) :
    Int → List JSpan → List CPEntry
  | _, [] => []
  | current_end, span :: rest =>
    if span.startTime.getD 0 ≥ current_end then
      mkCPEntry processes span ::
        cpGo processes (span.startTime.getD 0 + span.duration.getD 0) rest
    else cpGo processes current_end rest

/-- `sorted(spans, key=lambda s: s.get("startTime", 0))`: ascending start
time (Python's sort is stable, as is `List.insertionSort`). -/
def byStart (a b : JSpan) : Prop :=
  a.startTime.getD 0 ≤ b.startTime.getD 0

instance : DecidableRel byStart := fun a b =>
  inferInstanceAs (Decidable (a.startTime.getD 0 ≤ b.startTime.getD 0))

/-- `critical_path` of `analyze_trace` (lines 103-129): empty when there
are no spans, else the greedy scan over the start-sorted spans from
`current_end = 0`. -/
def criticalPath (t : JTrace) : List CPEntry :=
  if t.spans.isEmpty then []
  else cpGo t.processes 0 (t.spans.insertionSort byStart)

/-- The specification's greedy construction, in its own words: "sort spans
by start time ascending.  Maintain `current_end = 0`.  For each span in
order: if `span.start >= current_end`, append it to the critical path and
set `current_end = span.start + span.duration`; otherwise skip it." -/
def specGreedyStep (processes : List (String × JProcess)) :
    Int → List JSpan → List CPEntry
  | _, [] => []
  | current_end, span :: rest =>
    if span.startTime.getD 0 ≥ current_end then
      mkCPEntry processes span ::
        specGreedyStep processes
          (span.startTime.getD 0 + span.duration.getD 0) rest
    else specGreedyStep processes current_end rest

/-- The specification's greedy chain over the start-sorted spans. -/
def specGreedyChain (t : JTrace) : List CPEntry :=
  specGreedyStep t.processes 0 (t.spans.insertionSort byStart)

/-- An error entry `{service, operation, duration, logs}`. -/
structure ErrorEntry where
  service : String
  operation : String
  duration : Int
  logs : List JValue
deriving DecidableEq, Repr

/-- `tag.get("key") == "error" and tag.get("value") == "true"`: exact,
case-sensitive string comparison on both key and value. -/
def isErrorTag (tag : JTag) : Bool :=
  tag.key == some (JValue.str "error") && tag.value == some (JValue.str "true")

/-- The inner tag loop with `break` (lines 134-138): does any tag of the
span mark it as an error? -/
def anyErrorTag : List JTag → Bool
  | [] => false
  | tag :: rest => if isErrorTag tag then true else anyErrorTag rest

/-- The error entry collected for an error span (lines 140-151). -/
def mkErrorEntry (processes : List (String × JProcess)) (span : JSpan) :
    ErrorEntry :=
  { service := serviceOf processes span
    operation := span.operationName.getD "unknown"
    duration := span.duration.getD 0
    logs := span.logs }

/-- The error-collection loop of `analyze_trace` (lines 132-151). -/
def collectErrors (processes : List (String × JProcess)) :
    List JSpan → List ErrorEntry
  | [] => []
  | span :: rest =>
    if anyErrorTag span.tags then
      mkErrorEntry processes span :: collectErrors processes rest
    else collectErrors processes rest

/-- A long-operation entry `{service, operation, duration_ms}`. -/
structure LongOp where
  service : String
  operation : String
  duration_ms : ℚ
deriving DecidableEq, Repr

/-- `duration_ms = span.get("duration", 0) / 1000` (true division). -/
def durationMs (span : JSpan) : ℚ :=
  (span.duration.getD 0 : ℚ) / 1000

/-- `duration_ms > threshold_ms` with `threshold_ms = 100`. -/
def isLong (span : JSpan) : Bool :=
  durationMs span > 100

/-- The long-operation entry built for a long span (lines 158-168). -/
def mkLongOp (processes : List (String × JProcess)) (span : JSpan) :
    LongOp :=
  { service := serviceOf processes span
    operation := span.operationName.getD "unknown"
    duration_ms := durationMs span }

/-- The long-operation collection loop of `analyze_trace`
(lines 155-168). -/
def collectLongOps (processes : List (String × JProcess)) :
    List JSpan → List LongOp
  | [] => []
  | span :: rest =>
    if isLong span then
      mkLongOp processes span :: collectLongOps processes rest
    else collectLongOps processes rest

/-- `long_operations.sort(key=lambda x: x["duration_ms"], reverse=True)`:
descending duration. -/
def byDurationDesc (a b : LongOp) : Prop :=
  b.duration_ms ≤ a.duration_ms

instance : DecidableRel byDurationDesc := fun a b =>
  inferInstanceAs (Decidable (b.duration_ms ≤ a.duration_ms))

/-- `max(durations) if durations else 0` over
`[span.get("duration", 0) for span in spans]`. -/
def totalDuration (spans : List JSpan) : Int :=
  match spans.map (fun s => s.duration.getD 0) with
  | [] => 0
  | d :: ds => ds.foldl max d

/-- The analysis record returned by `analyze_trace` (lines 173-183). -/
structure Analysis where
  trace_id : String
  span_count : ℕ
  total_duration_ms : ℚ
  services : List String
  service_count : ℕ
  service_durations : List (String × ℚ)
  errors : List ErrorEntry
  critical_path : List CPEntry
  long_operations : List LongOp
deriving DecidableEq, Repr

/-- `analyze_trace(trace)` (`scripts/trace_analyze.py` lines 72-183). -/
def analyzeTrace (t : JTrace) : Analysis :=
  let groups := serviceGroups t
  { trace_id := t.traceID.getD "Unknown"
    span_count := t.spans.length
    total_duration_ms := (totalDuration t.spans : ℚ) / 1000
    services := groups.map Prod.fst
    service_count := groups.length
    service_durations :=
      groups.map (fun g =>
        (g.1, ((g.2.map (fun s => s.duration.getD 0)).sum : ℚ) / 1000))
    errors := collectErrors t.processes t.spans
    critical_path := criticalPath t
    long_operations := (collectLongOps t.processes t.spans).insertionSort
      byDurationDesc }

/-! ## Concrete inputs used by witnesses and counterexamples -/

/-- A span with no `processID`, carrying an `{key: "error", value: "true"}`
tag and lasting 200ms. -/
def spanUnres : JSpan :=
  { processID := none
    startTime := some 0
    duration := some 200000
    operationName := some "op"
    tags := [⟨some (JValue.str "error"), some (JValue.str "true")⟩]
    logs := [] }

/-- A trace whose only span is `spanUnres`, with an empty process table. -/
def traceUnres : JTrace :=
  { traceID := some "t0"
    spans := [spanUnres]
    processes := [] }

/-- A trace with two non-overlapping resolvable spans. -/
def traceChainW : JTrace :=
  { traceID := some "t4"
    spans := [{ processID := some "p1", startTime := some 0,
                duration := some 10, operationName := some "a",
                tags := [], logs := [] },
              { processID := some "p1", startTime := some 20,
                duration := some 5, operationName := some "b",
                tags := [], logs := [] }]
    processes := [("p1", ⟨some "api"⟩)] }

/-- A trace with one error span and one span tagged `error = "false"`. -/
def traceErrW : JTrace :=
  { traceID := some "t9"
    spans := [{ processID := some "p1", startTime := some 0,
                duration := some 7, operationName := some "good",
                tags := [⟨some (JValue.str "error"), some (JValue.str "false")⟩],
                logs := [] },
              { processID := some "p1", startTime := some 10,
                duration := some 3, operationName := some "bad",
                tags := [⟨some (JValue.str "error"), some (JValue.str "true")⟩],
                logs := [] }]
    processes := [("p1", ⟨some "api"⟩)] }

/-! ## Helper lemmas about the SLO catalogue -/

lemma lookup_def_cases {n : String} {d : SloDefinition}
    (h : SLO_DEFINITIONS.lookup n = some d) :
    d = apiHealthDef ∨ d = externalDataDef ∨ d = dataAccessDef := by
  simp only [SLO_DEFINITIONS, List.lookup] at h
  split at h
  · exact Or.inl (Option.some.inj h).symm
  · split at h
    · exact Or.inr (Or.inl (Option.some.inj h).symm)
    · split at h
      · exact Or.inr (Or.inr (Option.some.inj h).symm)
      · exact absurd h (by simp)

lemma lookup_windows {n : String} {d : SloDefinition}
    (h : SLO_DEFINITIONS.lookup n = some d) :
    d.windows = ["5m", "1h", "24h"] := by
  rcases lookup_def_cases h with rfl | rfl | rfl <;> rfl

lemma lookup_budget_pos {n : String} {d : SloDefinition}
    (h : SLO_DEFINITIONS.lookup n = some d) : 0 < d.error_budget := by
  rcases lookup_def_cases h with rfl | rfl | rfl <;>
    norm_num [apiHealthDef, externalDataDef, dataAccessDef]

/-! ## Claim C1: the error-budget update formula -/

/-- C1: for every SLO definition with target `t` and error-budget fraction
`b`, and every window of the definition, `update_slo_compliance` writes to
the error-budget gauge exactly
`if compliance_ratio >= t then 1.0 else max(0, 1 - (t - compliance_ratio)/b)`. -/
theorem errorBudget_gauge_formula (s : SloMetrics) (endpoint slo_name : String)
    (c : ℚ) (window : String) (d : SloDefinition)
    (hd : SLO_DEFINITIONS.lookup slo_name = some d) (hw : window ∈ d.windows) :
    (metricsOf (updateSloCompliance s endpoint slo_name c window)).map
        (fun s2 => s2.errorBudget (slo_name, window)) =
      some (some (if c ≥ d.target then 1
                  else max 0 (1 - (d.target - c) / d.error_budget))) := by
  rw [lookup_windows hd] at hw
  have hwvalid : window ∈ (["immediate", "5m", "1h", "24h"] : List String) := by
    simp only [List.mem_cons] at hw ⊢
    tauto
  have hwne : window ≠ "immediate" := by
    simp only [List.mem_cons, List.not_mem_nil, or_false] at hw
    rcases hw with rfl | rfl | rfl <;> decide
  unfold updateSloCompliance
  rw [if_pos hwvalid, hd]
  simp only [hwne, ne_eq, not_false_iff, if_true, metricsOf, Option.map_some,
    if_pos rfl]
  unfold budgetRemaining
  rcases lt_or_ge c d.target with h | h
  · rw [if_pos h, if_neg (not_le.mpr h)]
    simp
  · rw [if_neg (not_lt.mpr h), if_pos h]
    simp

/-- Witness for C1 at the `api_health` SLO, window `5m`, ratio `9/10`. -/
theorem errorBudget_gauge_formula_witness :
    (metricsOf (updateSloCompliance initMetrics "health_check" "api_health"
        (9/10) "5m")).map (fun s2 => s2.errorBudget ("api_health", "5m")) =
      some (some (if (9/10 : ℚ) ≥ apiHealthDef.target then 1
                  else max 0 (1 - (apiHealthDef.target - 9/10) /
                    apiHealthDef.error_budget))) :=
  errorBudget_gauge_formula initMetrics "health_check" "api_health" (9/10)
    "5m" apiHealthDef rfl (by decide)

/-! ## Claim C2: invalid windows -/

/-- C2 counterexample: called with the window `"2h"`, which is outside the
SLO definition's windows `["5m","1h","24h"]`, `update_slo_compliance` does
not raise — it returns with the state unchanged (no gauge written and no
`InvalidWindowError`). -/
theorem invalidWindow_does_not_raise :
    updateSloCompliance initMetrics "health_check" "api_health" (9/10) "2h"
        = Except.ok initMetrics
    ∧ raises (updateSloCompliance initMetrics "health_check" "api_health"
        (9/10) "2h") = false :=
  ⟨rfl, rfl⟩

/-- C2 amended: for every window outside `["immediate","5m","1h","24h"]`
the call is a silent no-op: it returns the state unchanged and raises
nothing. -/
theorem invalidWindow_silent_noop (s : SloMetrics) (endpoint slo_name : String)
    (c : ℚ) (window : String)
    (hw : window ∉ (["immediate", "5m", "1h", "24h"] : List String)) :
    updateSloCompliance s endpoint slo_name c window = Except.ok s := by
  unfold updateSloCompliance
  rw [if_neg hw]

/-- Witness for the amended C2 at the unknown window `"7d"`. -/
theorem invalidWindow_silent_noop_witness :
    updateSloCompliance initMetrics "health_check" "api_health" (9/10) "7d"
      = Except.ok initMetrics :=
  invalidWindow_silent_noop initMetrics "health_check" "api_health" (9/10)
    "7d" (by decide)

/-! ## Claim C3: negative latency -/

/-- C3 counterexample: a call with latency `-1` on a configured
(endpoint, SLO) pair does not raise `InvalidObservationError`; the negative
latency is recorded as an ordinary histogram sample. -/
theorem negativeLatency_recorded :
    raises (trackRequestForSlo initMetrics "health_check" "api_health"
        (-1) false) = false
    ∧ (metricsOf (trackRequestForSlo initMetrics "health_check" "api_health"
        (-1) false)).map
          (fun s2 => s2.latencyHist ("health_check", "api_health")) =
        some [(-1 : ℚ)] :=
  ⟨rfl, rfl⟩

/-- C3 amended: `track_request_for_slo` validates nothing about the
duration and never raises on any input. -/
theorem track_never_raises (s : SloMetrics) (endpoint slo_name : String)
    (latency : ℚ) (is_error : Bool) :
    raises (trackRequestForSlo s endpoint slo_name latency is_error)
      = false := by
  unfold trackRequestForSlo
  cases SLO_DEFINITIONS.lookup slo_name with
  | none => rfl
  | some slo_def =>
    by_cases h : endpoint ∈ slo_def.endpoints <;>
      cases is_error <;> simp [h, raises]

/-! ## Claim C6: silent no-op or exactly one sample -/

/-- C6: a call with an unknown SLO name, or with an endpoint outside the
SLO's endpoint set, leaves the state untouched and raises nothing; a
matching call appends exactly one latency sample to the
`(endpoint, slo_name)` histogram series, leaves every other series
untouched, and increments the `(endpoint, slo_name)` error counter exactly
when `is_error` is true. -/
theorem track_noop_or_single_sample (s : SloMetrics)
    (endpoint slo_name : String) (latency : ℚ) (is_error : Bool) :
    (SLO_DEFINITIONS.lookup slo_name = none →
      trackRequestForSlo s endpoint slo_name latency is_error = Except.ok s)
    ∧ (∀ d, SLO_DEFINITIONS.lookup slo_name = some d →
        endpoint ∉ d.endpoints →
        trackRequestForSlo s endpoint slo_name latency is_error = Except.ok s)
    ∧ (∀ d, SLO_DEFINITIONS.lookup slo_name = some d →
        endpoint ∈ d.endpoints →
        ((metricsOf (trackRequestForSlo s endpoint slo_name latency
            is_error)).map (fun s2 => s2.latencyHist (endpoint, slo_name)) =
          some (latency :: s.latencyHist (endpoint, slo_name)))
        ∧ (∀ k, k ≠ (endpoint, slo_name) →
            ((metricsOf (trackRequestForSlo s endpoint slo_name latency
                is_error)).map (fun s2 => s2.latencyHist k)) =
              some (s.latencyHist k))
        ∧ ((metricsOf (trackRequestForSlo s endpoint slo_name latency
            is_error)).map (fun s2 => s2.errorCount (endpoint, slo_name)) =
          some (s.errorCount (endpoint, slo_name) +
            if is_error then 1 else 0))
        ∧ (∀ k, k ≠ (endpoint, slo_name) →
            ((metricsOf (trackRequestForSlo s endpoint slo_name latency
                is_error)).map (fun s2 => s2.errorCount k)) =
              some (s.errorCount k))) := by
  refine ⟨fun hnone => ?_, fun d hd hnm => ?_, fun d hd hm => ?_⟩
  · unfold trackRequestForSlo
    rw [hnone]
  · unfold trackRequestForSlo
    rw [hd]
    simp [hnm]
  · unfold trackRequestForSlo
    rw [hd]
    refine ⟨?_, fun k hk => ?_, ?_, fun k hk => ?_⟩
    · cases is_error <;> simp [hm, metricsOf]
    · cases is_error <;> simp [hm, metricsOf, hk]
    · cases is_error <;> simp [hm, metricsOf]
    · cases is_error <;> simp [hm, metricsOf, hk]

/-- Witness for C6: a matching call records the sample `[1]`. -/
theorem track_noop_or_single_sample_witness :
    (metricsOf (trackRequestForSlo initMetrics "health_check" "api_health"
        1 true)).map (fun s2 => s2.latencyHist ("health_check", "api_health"))
      = some [1] := by
  have h := (track_noop_or_single_sample initMetrics "health_check"
    "api_health" 1 true).2.2 apiHealthDef rfl (by decide)
  simpa [initMetrics] using h.1

/-! ## Claim C7: health-band boundaries -/

/-- C7 counterexample: at `budget_remaining = 0.5` the evaluator
(`update_slo_compliance`'s low-budget logging) emits nothing at all, and at
`budget_remaining = 0.2` it emits only the below-50% info line, not the
critical warning — so the claimed boundary classification does not hold
for the evaluator. -/
theorem budgetLogLevel_boundaries_counterexample :
    budgetLogLevel (5/10) = none
    ∧ budgetLogLevel (2/10) = some LogLevel.info := by
  constructor <;> norm_num [budgetLogLevel]

/-- C7 amended: the boundary classification holds for the displayed band of
`display_slo_status` (`0.5 → warn`, `0.2 → critical`), while the
evaluator's low-budget logging uses strict comparisons: exactly `0.5`
produces no log line and exactly `0.2` produces the info-level line rather
than the critical warning. -/
theorem healthBand_boundaries :
    displayHealthBand (5/10) = HealthBand.warn
    ∧ displayHealthBand (2/10) = HealthBand.critical
    ∧ budgetLogLevel (5/10) = none
    ∧ budgetLogLevel (2/10) = some LogLevel.info := by
  refine ⟨?_, ?_, ?_, ?_⟩ <;> norm_num [displayHealthBand, budgetLogLevel]

/-! ## Claim C8: budget bounds and monotonicity -/

/-- C8: for every SLO of the catalogue, `budgetRemaining` always lies in
`[0, 1]`, and it is monotone: for compliance ratios `c1 ≤ c2` below the
target, `budgetRemaining c1 ≤ budgetRemaining c2`. -/
theorem budgetRemaining_bounds_mono (slo_name : String) (d : SloDefinition)
    (hd : SLO_DEFINITIONS.lookup slo_name = some d) (c c1 c2 : ℚ)
    (h12 : c1 ≤ c2) (h2 : c2 < d.target) :
    (0 ≤ budgetRemaining d.target d.error_budget c
      ∧ budgetRemaining d.target d.error_budget c ≤ 1)
    ∧ budgetRemaining d.target d.error_budget c1 ≤
        budgetRemaining d.target d.error_budget c2 := by
  have hb : 0 < d.error_budget := lookup_budget_pos hd
  constructor
  · unfold budgetRemaining
    split_ifs with h
    · refine ⟨le_max_left _ _, max_le (by norm_num) ?_⟩
      have hx : 0 ≤ (d.target - c) / d.error_budget :=
        div_nonneg (by linarith) hb.le
      linarith
    · exact ⟨by norm_num, le_refl 1⟩
  · unfold budgetRemaining
    rw [if_pos (lt_of_le_of_lt h12 h2), if_pos h2]
    refine max_le_max (le_refl 0) ?_
    have hdiv : (d.target - c2) / d.error_budget ≤
        (d.target - c1) / d.error_budget := by
      gcongr
    linarith

/-- Witness for C8 at the `api_health` SLO with `c1 = 8/10 ≤ c2 = 9/10`,
both below the target `19/20`. -/
theorem budgetRemaining_bounds_mono_witness :
    (0 ≤ budgetRemaining apiHealthDef.target apiHealthDef.error_budget (9/10)
      ∧ budgetRemaining apiHealthDef.target apiHealthDef.error_budget (9/10)
          ≤ 1)
    ∧ budgetRemaining apiHealthDef.target apiHealthDef.error_budget (8/10) ≤
        budgetRemaining apiHealthDef.target apiHealthDef.error_budget
          (9/10) :=
  budgetRemaining_bounds_mono "api_health" apiHealthDef rfl (9/10) (8/10)
    (9/10) (by norm_num) (by norm_num [apiHealthDef])

/-! ## Claim C10: the `"immediate"` window frame -/

/-- C10: with the window `"immediate"` and a defined SLO,
`update_slo_compliance` sets only the compliance gauge at
`(endpoint, slo, "immediate")`: the error-budget gauge map is returned
entirely unchanged, and every other compliance series keeps its value. -/
theorem immediate_window_frame (s : SloMetrics) (endpoint slo_name : String)
    (c : ℚ) (d : SloDefinition)
    (hd : SLO_DEFINITIONS.lookup slo_name = some d) :
    ((metricsOf (updateSloCompliance s endpoint slo_name c "immediate")).map
        (fun s2 => s2.errorBudget) = some s.errorBudget)
    ∧ ((metricsOf (updateSloCompliance s endpoint slo_name c
        "immediate")).map
          (fun s2 => s2.compliance (endpoint, slo_name, "immediate")) =
        some (some c))
    ∧ (∀ k, k ≠ (endpoint, slo_name, "immediate") →
        ((metricsOf (updateSloCompliance s endpoint slo_name c
            "immediate")).map (fun s2 => s2.compliance k)) =
          some (s.compliance k)) := by
  unfold updateSloCompliance
  rw [if_pos (by decide : "immediate" ∈
    (["immediate", "5m", "1h", "24h"] : List String)), hd]
  refine ⟨?_, ?_, fun k hk => ?_⟩
  · simp [metricsOf]
  · simp [metricsOf]
  · simp [metricsOf, hk]

/-- Witness for C10 at the `api_health` SLO. -/
theorem immediate_window_frame_witness :
    ((metricsOf (updateSloCompliance initMetrics "health_check" "api_health"
        (1/2) "immediate")).map (fun s2 => s2.errorBudget) =
      some initMetrics.errorBudget)
    ∧ ((metricsOf (updateSloCompliance initMetrics "health_check"
        "api_health" (1/2) "immediate")).map
          (fun s2 => s2.compliance ("health_check", "api_health",
            "immediate")) = some (some (1/2))) :=
  ⟨(immediate_window_frame initMetrics "health_check" "api_health" (1/2)
      apiHealthDef rfl).1,
   (immediate_window_frame initMetrics "health_check" "api_health" (1/2)
      apiHealthDef rfl).2.1⟩

/-! ## Helper lemmas about the trace analysis -/

lemma cpGo_eq_specGreedyStep (p : List (String × JProcess)) :
    ∀ (l : List JSpan) (cur : Int), cpGo p cur l = specGreedyStep p cur l := by
  intro l
  induction l with
  | nil => intro cur; rfl
  | cons span rest ih =>
    intro cur
    unfold cpGo specGreedyStep
    split_ifs <;> rw [ih]

lemma cpGo_head_start (p : List (String × JProcess)) :
    ∀ (l : List JSpan) (cur : Int) (e : CPEntry),
      (cpGo p cur l).head? = some e → cur ≤ e.start := by
  intro l
  induction l with
  | nil => intro cur e h; exact absurd h (by simp [cpGo])
  | cons span rest ih =>
    intro cur e h
    unfold cpGo at h
    split_ifs at h with hge
    · rw [List.head?_cons] at h
      cases h
      exact hge
    · exact ih cur e h

lemma cpGo_chain (p : List (String × JProcess)) :
    ∀ (l : List JSpan) (cur : Int),
      List.Chain' (fun a b => a.endTime ≤ b.start) (cpGo p cur l) := by
  intro l
  induction l with
  | nil => intro cur; simp [cpGo]
  | cons span rest ih =>
    intro cur
    unfold cpGo
    split_ifs with hge
    · refine List.chain'_cons'.mpr ⟨?_, ih _⟩
      intro b hb
      exact cpGo_head_start p rest _ b hb
    · exact ih cur

lemma cpGo_mem (p : List (String × JProcess)) :
    ∀ (l : List JSpan) (cur : Int) (e : CPEntry),
      e ∈ cpGo p cur l → ∃ s2 ∈ l, e = mkCPEntry p s2 := by
  intro l
  induction l with
  | nil => intro cur e h; exact absurd h (by simp [cpGo])
  | cons span rest ih =>
    intro cur e h
    unfold cpGo at h
    split_ifs at h with hge
    · rcases List.mem_cons.mp h with rfl | h2
      · exact ⟨span, List.mem_cons_self _ _, rfl⟩
      · obtain ⟨s2, hs2, he⟩ := ih _ e h2
        exact ⟨s2, List.mem_cons_of_mem _ hs2, he⟩
    · obtain ⟨s2, hs2, he⟩ := ih cur e h
      exact ⟨s2, List.mem_cons_of_mem _ hs2, he⟩

lemma collectErrors_eq_filter_map (p : List (String × JProcess)) :
    ∀ l : List JSpan,
      collectErrors p l =
        (l.filter fun s => anyErrorTag s.tags).map (mkErrorEntry p) := by
  intro l
  induction l with
  | nil => rfl
  | cons span rest ih =>
    unfold collectErrors
    rw [List.filter_cons]
    split_ifs with h <;> simp [h, ih]

lemma collectLongOps_eq_filter_map (p : List (String × JProcess)) :
    ∀ l : List JSpan,
      collectLongOps p l = (l.filter isLong).map (mkLongOp p) := by
  intro l
  induction l with
  | nil => rfl
  | cons span rest ih =>
    unfold collectLongOps
    rw [List.filter_cons]
    split_ifs with h <;> simp [h, ih]

lemma anyErrorTag_iff (tags : List JTag) :
    anyErrorTag tags = true ↔
      ∃ tag ∈ tags, tag.key = some (JValue.str "error") ∧
        tag.value = some (JValue.str "true") := by
  induction tags with
  | nil => simp [anyErrorTag]
  | cons tag rest ih =>
    unfold anyErrorTag
    split_ifs with h
    · simp only [true_iff]
      refine ⟨tag, List.mem_cons_self _ _, ?_⟩
      simpa [isErrorTag, Bool.and_eq_true, beq_iff_eq] using h
    · rw [ih]
      constructor
      · rintro ⟨tg, htg, hprop⟩
        exact ⟨tg, List.mem_cons_of_mem _ htg, hprop⟩
      · rintro ⟨tg, htg, hprop⟩
        rcases List.mem_cons.mp htg with rfl | htg2
        · exact absurd (by simp [isErrorTag, hprop.1, hprop.2]) h
        · exact ⟨tg, htg2, hprop⟩

lemma serviceOf_unresolvable {p : List (String × JProcess)} {span : JSpan}
    (h : resolvable p span = false) : serviceOf p span = "unknown" := by
  obtain ⟨pidOpt, st, du, opn, tags, logs⟩ := span
  cases pidOpt with
  | none => rfl
  | some pid =>
    unfold resolvable at h
    unfold serviceOf
    by_cases hemp : pid = ""
    · simp [hemp]
    · cases hl : List.lookup pid p with
      | none => simp [hemp, hl]
      | some q => simp [hemp, hl] at h

lemma addToGroups_keys (groups : List (String × List JSpan)) (name : String)
    (span : JSpan) {k : String}
    (h : k ∈ (addToGroups groups name span).map Prod.fst) :
    k ∈ groups.map Prod.fst ∨ k = name := by
  unfold addToGroups at h
  split_ifs at h with hl
  · rw [List.map_map] at h
    left
    refine (List.map_congr_left ?_) ▸ h
    intro g _
    dsimp only [Function.comp]
    split_ifs <;> rfl
  · rw [List.map_append] at h
    rcases List.mem_append.mp h with h2 | h2
    · exact Or.inl h2
    · simp at h2
      exact Or.inr h2

lemma serviceGroupsAux_keys (p : List (String × JProcess)) :
    ∀ (l : List JSpan) (groups : List (String × List JSpan)) (k : String),
      k ∈ (serviceGroupsAux p groups l).map Prod.fst →
      k ∈ groups.map Prod.fst ∨
        ∃ s2 ∈ l, resolvable p s2 = true ∧ k = serviceOf p s2 := by
  intro l
  induction l with
  | nil => intro groups k h; exact Or.inl h
  | cons span rest ih =>
    intro groups k h
    unfold serviceGroupsAux at h
    split_ifs at h with hr
    · rcases ih _ k h with h2 | ⟨s2, hs2, hres, hk⟩
      · rcases addToGroups_keys groups (serviceOf p span) span h2 with h3 | h3
        · exact Or.inl h3
        · exact Or.inr ⟨span, List.mem_cons_self _ _, hr, h3⟩
      · exact Or.inr ⟨s2, List.mem_cons_of_mem _ hs2, hres, hk⟩
    · rcases ih _ k h with h2 | ⟨s2, hs2, hres, hk⟩
      · exact Or.inl h2
      · exact Or.inr ⟨s2, List.mem_cons_of_mem _ hs2, hres, hk⟩

/-! ## Claim C4: the greedy critical path -/

/-- C4: the critical path produced by `analyze_trace` equals the
specification's greedy chain (sort by start time ascending, accept a span
when its start is at least `current_end`), and consecutive entries never
overlap: `entries[i].end ≤ entries[i+1].start`. -/
theorem criticalPath_greedy_chain (t : JTrace) :
    (analyzeTrace t).critical_path = specGreedyChain t
    ∧ ∀ (i : ℕ) (h : i + 1 < (analyzeTrace t).critical_path.length),
        ((analyzeTrace t).critical_path.get ⟨i, Nat.lt_of_succ_lt h⟩).endTime
          ≤ ((analyzeTrace t).critical_path.get ⟨i + 1, h⟩).start := by
  have hcp : (analyzeTrace t).critical_path = criticalPath t := rfl
  constructor
  · rw [hcp]
    unfold criticalPath specGreedyChain
    cases hs : t.spans with
    | nil => simp [cpGo_eq_specGreedyStep, specGreedyStep]
    | cons a l =>
      rw [cpGo_eq_specGreedyStep]
      simp [List.isEmpty]
  · intro i h
    have hchain : List.Chain' (fun a b => a.endTime ≤ b.start)
        (analyzeTrace t).critical_path := by
      rw [hcp]
      unfold criticalPath
      split_ifs
      · simp
      · exact cpGo_chain t.processes _ 0
    exact List.chain'_iff_get.mp hchain i (by omega)

/-- Witness for C4: on a two-span trace the two consecutive critical-path
entries satisfy `end ≤ start`. -/
theorem criticalPath_greedy_chain_witness :
    ((analyzeTrace traceChainW).critical_path.get ⟨0, by decide⟩).endTime ≤
      ((analyzeTrace traceChainW).critical_path.get ⟨1, by decide⟩).start :=
  (criticalPath_greedy_chain traceChainW).2 0 (by decide)

/-! ## Claim C9: error spans -/

/-- C9: the errors output consists of exactly the spans carrying a tag
whose key is the string `"error"` and whose value is the string `"true"`
(exact, case-sensitive string comparison); a tag valued `"false"` or
boolean `true` does not qualify. -/
theorem errorSpans_characterisation (t : JTrace) :
    (analyzeTrace t).errors =
      (t.spans.filter fun s => anyErrorTag s.tags).map
        (mkErrorEntry t.processes)
    ∧ (∀ tags : List JTag, anyErrorTag tags = true ↔
        ∃ tag ∈ tags, tag.key = some (JValue.str "error") ∧
          tag.value = some (JValue.str "true"))
    ∧ anyErrorTag [⟨some (JValue.str "error"), some (JValue.str "false")⟩]
        = false
    ∧ anyErrorTag [⟨some (JValue.str "error"), some (JValue.bool true)⟩]
        = false :=
  ⟨collectErrors_eq_filter_map t.processes t.spans, anyErrorTag_iff,
    by decide, by decide⟩

/-- Witness for C9 on a trace with one `error="true"` span and one
`error="false"` span. -/
theorem errorSpans_characterisation_witness :
    (analyzeTrace traceErrW).errors =
      ((traceErrW.spans.filter fun s => anyErrorTag s.tags).map
        (mkErrorEntry traceErrW.processes))
    ∧ anyErrorTag [⟨some (JValue.str "error"), some (JValue.str "false")⟩]
        = false :=
  ⟨(errorSpans_characterisation traceErrW).1,
   (errorSpans_characterisation traceErrW).2.2.1⟩

/-! ## Claim C5: spans without a resolvable service -/

/-- C5 counterexample: the single span of `traceUnres` has no resolvable
service.  It is processed (it appears in `errors` attributed to
`"unknown"`), yet the `services` list and the per-service duration mapping
do not attribute it to `"unknown"` — they omit it entirely. -/
theorem unresolvable_span_counterexample :
    (analyzeTrace traceUnres).errors =
      [{ service := "unknown", operation := "op", duration := 200000,
         logs := [] }]
    ∧ (analyzeTrace traceUnres).services = []
    ∧ "unknown" ∉ (analyzeTrace traceUnres).services
    ∧ (analyzeTrace traceUnres).service_durations = [] :=
  ⟨rfl, rfl, by decide, rfl⟩

/-- C5 amended: a span whose service cannot be resolved is attributed to
the sentinel `"unknown"` in the critical path, the errors output and the
long-operations output, and the analysis never fails; but such a span is
omitted from the `services` list and the per-service duration mapping,
whose keys come only from spans with a resolvable service. -/
theorem unresolvable_span_attribution (t : JTrace) (span : JSpan)
    (hmem : span ∈ t.spans) (hres : resolvable t.processes span = false) :
    serviceOf t.processes span = "unknown"
    ∧ (∀ name ∈ (analyzeTrace t).services, ∃ s2 ∈ t.spans,
        resolvable t.processes s2 = true ∧ name = serviceOf t.processes s2)
    ∧ (analyzeTrace t).service_durations.map Prod.fst =
        (analyzeTrace t).services
    ∧ (anyErrorTag span.tags = true →
        mkErrorEntry t.processes span ∈ (analyzeTrace t).errors
        ∧ (mkErrorEntry t.processes span).service = "unknown")
    ∧ (isLong span = true →
        mkLongOp t.processes span ∈ (analyzeTrace t).long_operations
        ∧ (mkLongOp t.processes span).service = "unknown")
    ∧ (∀ e ∈ (analyzeTrace t).critical_path, ∃ s2 ∈ t.spans,
        e = mkCPEntry t.processes s2) := by
  refine ⟨serviceOf_unresolvable hres, ?_, ?_, fun herr => ⟨?_, ?_⟩,
    fun hlong => ⟨?_, ?_⟩, fun e he => ?_⟩
  · intro name hname
    have hsvc : (analyzeTrace t).services =
        (serviceGroupsAux t.processes [] t.spans).map Prod.fst := rfl
    rw [hsvc] at hname
    rcases serviceGroupsAux_keys t.processes t.spans [] name hname with
      h | h
    · simp at h
    · exact h
  · show ((serviceGroups t).map _).map Prod.fst =
      (serviceGroups t).map Prod.fst
    rw [List.map_map]
    rfl
  · show mkErrorEntry t.processes span ∈ collectErrors t.processes t.spans
    rw [collectErrors_eq_filter_map]
    exact List.mem_map_of_mem _ (List.mem_filter.mpr ⟨hmem, herr⟩)
  · exact serviceOf_unresolvable hres
  · show mkLongOp t.processes span ∈
      (collectLongOps t.processes t.spans).insertionSort byDurationDesc
    rw [List.mem_insertionSort, collectLongOps_eq_filter_map]
    exact List.mem_map_of_mem _ (List.mem_filter.mpr ⟨hmem, hlong⟩)
  · exact serviceOf_unresolvable hres
  · have he2 : e ∈ criticalPath t := he
    unfold criticalPath at he2
    split_ifs at he2 with hempty
    · simp at he2
    · obtain ⟨s2, hs2, heq⟩ :=
        cpGo_mem t.processes (t.spans.insertionSort byStart) 0 e he2
      exact ⟨s2, (List.mem_insertionSort byStart).mp hs2, heq⟩

/-- Witness for the amended C5: the unresolvable span of `traceUnres` is
attributed to `"unknown"` and lands in the errors output. -/
theorem unresolvable_span_attribution_witness :
    serviceOf traceUnres.processes spanUnres = "unknown"
    ∧ mkErrorEntry traceUnres.processes spanUnres ∈
        (analyzeTrace traceUnres).errors := by
  have h := unresolvable_span_attribution traceUnres spanUnres
    (by decide) (by decide)
  exact ⟨h.1, (h.2.2.2.1 (by decide)).1⟩

end DockerMS
